import Mathlib

/-!
Verification of the configuration-management and notification module of the
Deriv Rise/Fall bot (files src/config_manager.py and src/telegram_notifier.py).

Shallow embedding conventions:
  * Python floats are modelled as rationals (ℚ); every arithmetic operation the
    claims touch is exact on the values involved.
  * Python ints are modelled as ℤ; a `range(n)` loop iterates `n.toNat` times.
  * Validation error strings are modelled by a structured message type carrying
    the interpolated data; the claims only inspect which violations occur.
  * Python `(ok, msg)` pairs where `msg` is empty iff `ok` are modelled as
    `Option` of the message (`none` = valid).
  * File-system and network effects are injected as explicit oracle values.
  * Uncaught Python exceptions are modelled with `Except`.
-/

/-- The `RiskLevel` enumeration of `config_manager.py`. -/
inductive RiskLevel where
  | conservative
  | moderate
  | aggressive
  | custom
deriving DecidableEq, Repr

/-- The `.value` string of a `RiskLevel` member. -/
def RiskLevel.value : RiskLevel → String
  | .conservative => "conservative"
  | .moderate => "moderate"
  | .aggressive => "aggressive"
  | .custom => "custom"

/-- `RiskLevel(s)` lookup by value: `none` models the `ValueError` Python raises
when `s` matches no member. -/
def RiskLevel.ofValue (s : String) : Option RiskLevel :=
  if s = "conservative" then some .conservative
  else if s = "moderate" then some .moderate
  else if s = "aggressive" then some .aggressive
  else if s = "custom" then some .custom
  else none

/-- Dataclass `TradingConfig`. -/
structure TradingConfig where
  base_stake : ℚ
  contract_type : String
  contract_duration : ℤ
  duration_unit : String
  trading_asset : String
  trade_direction : String
deriving DecidableEq, Repr

/-- The dataclass field defaults of `TradingConfig`. -/
def TradingConfig.default : TradingConfig :=
  { base_stake := 1
    contract_type := "rise_fall"
    contract_duration := 1
    duration_unit := "ticks"
    trading_asset := "R_100"
    trade_direction := "random" }

/-- Dataclass `MartingaleConfig`. -/
structure MartingaleConfig where
  enabled : Bool
  multiplier : ℚ
  max_steps : ℤ
  reset_on_win : Bool
deriving DecidableEq, Repr

/-- The dataclass field defaults of `MartingaleConfig`. -/
def MartingaleConfig.default : MartingaleConfig :=
  { enabled := true, multiplier := 2, max_steps := 5, reset_on_win := true }

/-- Dataclass `RiskManagementConfig`. -/
structure RiskManagementConfig where
  take_profit : ℚ
  stop_loss : ℚ
  max_consecutive_losses : ℤ
  min_balance_threshold : ℚ
  max_daily_trades : ℤ
deriving DecidableEq, Repr

/-- The dataclass field defaults of `RiskManagementConfig`. -/
def RiskManagementConfig.default : RiskManagementConfig :=
  { take_profit := 50
    stop_loss := 25
    max_consecutive_losses := 5
    min_balance_threshold := 10
    max_daily_trades := 0 }

/-- Dataclass `TelegramConfig`. -/
structure TelegramConfig where
  enabled : Bool
  bot_token : String
  chat_id : String
  notify_on_win : Bool
  notify_on_loss : Bool
  notify_on_start : Bool
  notify_on_stop : Bool
  notify_on_take_profit : Bool
  notify_on_stop_loss : Bool
  send_session_summary : Bool
deriving DecidableEq, Repr

/-- The dataclass field defaults of `TelegramConfig`. -/
def TelegramConfig.default : TelegramConfig :=
  { enabled := false
    bot_token := "YOUR_BOT_TOKEN"
    chat_id := "YOUR_CHAT_ID"
    notify_on_win := true
    notify_on_loss := true
    notify_on_start := true
    notify_on_stop := true
    notify_on_take_profit := true
    notify_on_stop_loss := true
    send_session_summary := true }

/-- Dataclass `BotConfig`, the aggregate configuration record. -/
structure BotConfig where
  trading : TradingConfig
  martingale : MartingaleConfig
  risk_management : RiskManagementConfig
  telegram : TelegramConfig
  risk_level : RiskLevel
deriving DecidableEq, Repr

/-- `BotConfig()` with all dataclass defaults (`risk_level = MODERATE`). -/
def BotConfig.default : BotConfig :=
  { trading := TradingConfig.default
    martingale := MartingaleConfig.default
    risk_management := RiskManagementConfig.default
    telegram := TelegramConfig.default
    risk_level := .moderate }

/-- Structured stand-in for the f-string violation messages produced by
`ConfigValidator`; each constructor corresponds to one `errors.append` site and
carries the data interpolated there. -/
inductive ValidationMsg where
  | mustBePositive (fieldName : String) (value : ℚ)
  | mustBeBetween (fieldName : String) (lo hi value : ℚ)
  | durationAtLeastOne (value : ℤ)
  | invalidDurationUnit (unit : String)
  | invalidTradeDirection
  | maxStepsOutOfRange (value : ℤ)
deriving DecidableEq, Repr

/-- Model of the Python `str.lower()` call on the ASCII strings this module
compares: each character is lower-cased individually. -/
def pyLower (s : String) : String := String.mk (s.data.map Char.toLower)

namespace ConfigValidator

/-- `ConfigValidator.validate_positive`: `some msg` models the `(False, msg)`
return, `none` models `(True, "")`. -/
def validate_positive (value : ℚ) (fieldName : String) : Option ValidationMsg :=
  if value ≤ 0 then some (.mustBePositive fieldName value) else none

/-- `ConfigValidator.validate_range` (inclusive bounds). -/
def validate_range (value lo hi : ℚ) (fieldName : String) : Option ValidationMsg :=
  if value < lo ∨ hi < value then some (.mustBeBetween fieldName lo hi value) else none

/-- The `valid_units` list of `validate_trading_config`. -/
def valid_units : List String := ["ticks", "seconds", "minutes", "t", "s", "m"]

/-- The `valid_directions` list of `validate_trading_config`. -/
def valid_directions : List String := ["random", "rise", "fall", "call", "put"]

/-- `ConfigValidator.validate_trading_config`: the violation list accumulated in
source order (positivity, range, duration, unit, direction). -/
def validate_trading_config (config : TradingConfig) : List ValidationMsg :=
  (validate_positive config.base_stake "Base stake").toList ++
  (validate_range config.base_stake (1/100) 10000 "Base stake").toList ++
  (if config.contract_duration < 1 then
    [.durationAtLeastOne config.contract_duration] else []) ++
  (if valid_units.contains (pyLower config.duration_unit) then []
   else [.invalidDurationUnit config.duration_unit]) ++
  (if valid_directions.contains (pyLower config.trade_direction) then []
   else [.invalidTradeDirection])

/-- `ConfigValidator.validate_martingale_config`: all checks are guarded by the
`enabled` flag. -/
def validate_martingale_config (config : MartingaleConfig) : List ValidationMsg :=
  if config.enabled then
    (validate_range config.multiplier (11/10) 10 "Multiplier").toList ++
    (if config.max_steps < 1 ∨ 20 < config.max_steps then
      [.maxStepsOutOfRange config.max_steps] else [])
  else []

end ConfigValidator

/-- For claim C2: a trading configuration whose base stake 0.005 lies in
(0, 10000] and whose unit and direction are recognized, yet fails the
range check against the lower bound 0.01. -/
def smallStakeTrading : TradingConfig :=
  { base_stake := 1/200
    contract_type := "rise_fall"
    contract_duration := 1
    duration_unit := "ticks"
    trading_asset := "R_100"
    trade_direction := "random" }

/-- For claim C2: a trading configuration with a valid stake, recognized unit
and direction, but contract duration 0 — another configuration the claim covers
yet the validator rejects. -/
def zeroDurationTrading : TradingConfig :=
  { base_stake := 1
    contract_type := "rise_fall"
    contract_duration := 0
    duration_unit := "ticks"
    trading_asset := "R_100"
    trade_direction := "random" }

/-- C2 (counterexample): the claim "stake in (0, 10000] with recognized unit and
direction implies an empty violation list" fails at stake 0.005 (in (0, 10000]
but below the range check lower bound 0.01) and also at contract duration 0
(which the claim leaves unconstrained); in both cases unit "ticks" and direction
"random" are recognized, yet `validate_trading_config` reports a violation. -/
theorem C2_counterexample :
    (0 < smallStakeTrading.base_stake ∧ smallStakeTrading.base_stake ≤ 10000 ∧
    ConfigValidator.valid_units.contains (pyLower smallStakeTrading.duration_unit) = true ∧
    ConfigValidator.valid_directions.contains (pyLower smallStakeTrading.trade_direction) = true ∧
    ConfigValidator.validate_trading_config smallStakeTrading =
      [.mustBeBetween "Base stake" (1/100) 10000 (1/200)]) ∧
    (0 < zeroDurationTrading.base_stake ∧ zeroDurationTrading.base_stake ≤ 10000 ∧
    ConfigValidator.valid_units.contains (pyLower zeroDurationTrading.duration_unit) = true ∧
    ConfigValidator.valid_directions.contains (pyLower zeroDurationTrading.trade_direction) = true ∧
    ConfigValidator.validate_trading_config zeroDurationTrading =
      [.durationAtLeastOne 0]) := by
  constructor
  · refine ⟨by norm_num [smallStakeTrading], by norm_num [smallStakeTrading],
      by decide, by decide, ?_⟩
    norm_num [ConfigValidator.validate_trading_config, ConfigValidator.validate_positive,
      ConfigValidator.validate_range, smallStakeTrading]
    decide
  · refine ⟨by norm_num [zeroDurationTrading], by norm_num [zeroDurationTrading],
      by decide, by decide, ?_⟩
    norm_num [ConfigValidator.validate_trading_config, ConfigValidator.validate_positive,
      ConfigValidator.validate_range, zeroDurationTrading]
    decide

/-- C2 (amended): for every trading configuration whose base stake lies in
[0.01, 10000], whose contract duration is at least 1, and whose duration unit
and trade direction (lower-cased) are recognized, `validate_trading_config`
returns an empty violation list. -/
theorem C2_amended (c : TradingConfig)
    (hlo : 1/100 ≤ c.base_stake) (hhi : c.base_stake ≤ 10000)
    (hdur : 1 ≤ c.contract_duration)
    (hunit : ConfigValidator.valid_units.contains (pyLower c.duration_unit) = true)
    (hdir : ConfigValidator.valid_directions.contains (pyLower c.trade_direction) = true) :
    ConfigValidator.validate_trading_config c = [] := by
  have hpos : ¬ c.base_stake ≤ 0 := by linarith [hlo]
  have hrange : ¬ (c.base_stake < 1/100 ∨ (10000 : ℚ) < c.base_stake) := by
    push_neg
    exact ⟨hlo, hhi⟩
  have hdur2 : ¬ c.contract_duration < 1 := by omega
  unfold ConfigValidator.validate_trading_config ConfigValidator.validate_positive
    ConfigValidator.validate_range
  rw [if_neg hpos, if_neg hrange, if_neg hdur2, if_pos hunit, if_pos hdir]
  rfl

/-- Witness for C2_amended at the default trading configuration. -/
theorem C2_amended_witness :
    ConfigValidator.validate_trading_config TradingConfig.default = [] :=
  C2_amended TradingConfig.default (by norm_num [TradingConfig.default])
    (by norm_num [TradingConfig.default]) (by decide) (by decide) (by decide)

/-- C7: for every martingale configuration with the enabled flag false,
`validate_martingale_config` returns an empty violation list regardless of the
multiplier and max_steps values. -/
theorem C7_disabled_martingale_no_violations (c : MartingaleConfig)
    (h : c.enabled = false) :
    ConfigValidator.validate_martingale_config c = [] := by
  simp [ConfigValidator.validate_martingale_config, h]

/-- Witness for C7 at multiplier 0.1 and max_steps 100. -/
theorem C7_witness :
    ConfigValidator.validate_martingale_config
      { enabled := false, multiplier := 1/10, max_steps := 100, reset_on_win := true } = [] :=
  C7_disabled_martingale_no_violations _ rfl

/-- The partial-override record one entry of `PresetManager.PRESETS` holds: the
six keys every preset sets (stake; martingale multiplier and max steps; take
profit, stop loss, max consecutive losses). -/
structure Preset where
  base_stake : ℚ
  multiplier : ℚ
  max_steps : ℤ
  take_profit : ℚ
  stop_loss : ℚ
  max_consecutive_losses : ℤ
deriving DecidableEq, Repr

namespace PresetManager

/-- The `PRESETS` dictionary: `none` models a key absent from the dict
(`CUSTOM` has no entry). -/
def PRESETS : RiskLevel → Option Preset
  | .conservative => some
      { base_stake := 1/2, multiplier := 3/2, max_steps := 3
        take_profit := 25, stop_loss := 15, max_consecutive_losses := 3 }
  | .moderate => some
      { base_stake := 1, multiplier := 2, max_steps := 5
        take_profit := 50, stop_loss := 25, max_consecutive_losses := 5 }
  | .aggressive => some
      { base_stake := 2, multiplier := 5/2, max_steps := 7
        take_profit := 100, stop_loss := 50, max_consecutive_losses := 7 }
  | .custom => none

/-- `PresetManager.get_preset`: dictionary lookup falling back to the
`MODERATE` entry. -/
def get_preset (level : RiskLevel) : Preset :=
  (PRESETS level).getD
    { base_stake := 1, multiplier := 2, max_steps := 5
      take_profit := 50, stop_loss := 25, max_consecutive_losses := 5 }

/-- `PresetManager.apply_preset`: overwrite the six preset-covered fields and
the risk-level tag, keep everything else. -/
def apply_preset (config : BotConfig) (level : RiskLevel) : BotConfig :=
  let p := get_preset level
  { config with
    trading := { config.trading with base_stake := p.base_stake }
    martingale := { config.martingale with
      multiplier := p.multiplier, max_steps := p.max_steps }
    risk_management := { config.risk_management with
      take_profit := p.take_profit, stop_loss := p.stop_loss
      max_consecutive_losses := p.max_consecutive_losses }
    risk_level := level }

/-- The accumulation loop of `calculate_max_loss`: one iteration adds the
current stake to the total and multiplies the stake. -/
def maxLossLoop (multiplier : ℚ) : ℕ → ℚ → ℚ → ℚ
  | 0, _, total => total
  | n + 1, stake, total => maxLossLoop multiplier n (stake * multiplier) (total + stake)

/-- `PresetManager.calculate_max_loss`: base stake when martingale is disabled,
else the stake total over `range(max_steps)` iterations. -/
def calculate_max_loss (config : BotConfig) : ℚ :=
  if config.martingale.enabled = false then config.trading.base_stake
  else
    maxLossLoop config.martingale.multiplier config.martingale.max_steps.toNat
      config.trading.base_stake 0

/-- `PresetManager.get_recommended_balance` (its default `safety_factor`
argument is 2.0; here the factor is passed explicitly). -/
def get_recommended_balance (config : BotConfig) (safety_factor : ℚ) : ℚ :=
  calculate_max_loss config * safety_factor

end PresetManager

/-- The loop of `calculate_max_loss` computes the geometric stake sum. -/
theorem maxLossLoop_eq_geom_sum (m : ℚ) (n : ℕ) (stake total : ℚ) :
    PresetManager.maxLossLoop m n stake total =
      total + stake * ∑ i ∈ Finset.range n, m ^ i := by
  induction n generalizing stake total with
  | zero => simp [PresetManager.maxLossLoop]
  | succ k ih =>
    rw [PresetManager.maxLossLoop, ih, geom_sum_succ]
    ring

/-- The configuration of the benchmark instance of the spec: base stake 1.0,
martingale enabled, multiplier 2.0, max steps 5. -/
def benchConfig : BotConfig :=
  { BotConfig.default with
    trading := { TradingConfig.default with base_stake := 1 }
    martingale := { enabled := true, multiplier := 2, max_steps := 5, reset_on_win := true } }

/-- C3: `calculate_max_loss` returns the base stake when martingale is disabled;
when enabled it returns the geometric sum of base times multiplier to the i for
i below max_steps, equal to base * (multiplier ^ max_steps - 1) / (multiplier - 1)
for multiplier distinct from 1; at base 1.0, multiplier 2.0, max_steps 5 it is
exactly 31, and the recommended balance with safety factor 2.0 is exactly 62. -/
theorem C3_calculate_max_loss :
    (∀ c : BotConfig, c.martingale.enabled = false →
      PresetManager.calculate_max_loss c = c.trading.base_stake) ∧
    (∀ c : BotConfig, c.martingale.enabled = true →
      PresetManager.calculate_max_loss c =
        c.trading.base_stake *
          ∑ i ∈ Finset.range c.martingale.max_steps.toNat, c.martingale.multiplier ^ i) ∧
    (∀ c : BotConfig, c.martingale.enabled = true → c.martingale.multiplier ≠ 1 →
      PresetManager.calculate_max_loss c =
        c.trading.base_stake *
          (c.martingale.multiplier ^ c.martingale.max_steps.toNat - 1) /
          (c.martingale.multiplier - 1)) ∧
    PresetManager.calculate_max_loss benchConfig = 31 ∧
    PresetManager.get_recommended_balance benchConfig 2 = 62 := by
  have hgeom : ∀ c : BotConfig, c.martingale.enabled = true →
      PresetManager.calculate_max_loss c =
        c.trading.base_stake *
          ∑ i ∈ Finset.range c.martingale.max_steps.toNat, c.martingale.multiplier ^ i := by
    intro c hc
    rw [PresetManager.calculate_max_loss, hc]
    simp [maxLossLoop_eq_geom_sum]
  have hbench : PresetManager.calculate_max_loss benchConfig = 31 := by
    rw [hgeom benchConfig rfl]
    norm_num [benchConfig, show Int.toNat 5 = 5 from rfl, Finset.sum_range_succ]
  refine ⟨?_, hgeom, ?_, hbench, ?_⟩
  · intro c hc
    rw [PresetManager.calculate_max_loss, hc]
    rfl
  · intro c hc hm
    rw [hgeom c hc, geom_sum_eq hm]
    ring
  · rw [PresetManager.get_recommended_balance, hbench]
    norm_num

/-- Witness for C3 at the benchmark configuration (enabled, multiplier 2,
max steps 5) and at the same configuration with martingale disabled. -/
theorem C3_witness :
    PresetManager.calculate_max_loss
      { benchConfig with martingale := { benchConfig.martingale with enabled := false } } =
      (1 : ℚ) ∧
    PresetManager.calculate_max_loss benchConfig =
      1 * ((2 : ℚ) ^ 5 - 1) / (2 - 1) := by
  constructor
  · exact C3_calculate_max_loss.1 _ rfl
  · have h := C3_calculate_max_loss.2.2.1 benchConfig rfl (by norm_num [benchConfig])
    rw [h]
    norm_num [benchConfig, show Int.toNat 5 = 5 from rfl]

/-- C6: applying the aggressive preset to any starting configuration sets base
stake 2.00, multiplier 2.5, max_steps 7, take_profit 100.00, stop_loss 50.00,
max_consecutive_losses 7 and the risk-level tag "aggressive" on the returned
configuration. -/
theorem C6_apply_aggressive_preset (c : BotConfig) :
    (PresetManager.apply_preset c .aggressive).trading.base_stake = 2 ∧
    (PresetManager.apply_preset c .aggressive).martingale.multiplier = 5/2 ∧
    (PresetManager.apply_preset c .aggressive).martingale.max_steps = 7 ∧
    (PresetManager.apply_preset c .aggressive).risk_management.take_profit = 100 ∧
    (PresetManager.apply_preset c .aggressive).risk_management.stop_loss = 50 ∧
    (PresetManager.apply_preset c .aggressive).risk_management.max_consecutive_losses = 7 ∧
    (PresetManager.apply_preset c .aggressive).risk_level = .aggressive ∧
    (PresetManager.apply_preset c .aggressive).risk_level.value = "aggressive" := by
  refine ⟨rfl, rfl, rfl, rfl, rfl, rfl, rfl, rfl⟩

/-- C8: with martingale enabled and max_steps 0, `calculate_max_loss` returns 0,
which is strictly below any positive base stake, whereas the same configuration
with martingale disabled reports the base stake itself. -/
theorem C8_zero_steps_max_loss (c : BotConfig)
    (henabled : c.martingale.enabled = true) (hsteps : c.martingale.max_steps = 0) :
    PresetManager.calculate_max_loss c = 0 ∧
    (0 < c.trading.base_stake →
      PresetManager.calculate_max_loss c < c.trading.base_stake) ∧
    PresetManager.calculate_max_loss
      { c with martingale := { c.martingale with enabled := false } } =
      c.trading.base_stake := by
  have h0 : PresetManager.calculate_max_loss c = 0 := by
    rw [PresetManager.calculate_max_loss, henabled, hsteps]
    rfl
  refine ⟨h0, ?_, rfl⟩
  intro hpos
  rw [h0]
  exact hpos

/-- Witness for C8 at the default configuration with max_steps 0 and positive
base stake 1. -/
theorem C8_witness :
    PresetManager.calculate_max_loss
      { BotConfig.default with
        martingale := { MartingaleConfig.default with max_steps := 0 } } = 0 ∧
    PresetManager.calculate_max_loss
      { BotConfig.default with
        martingale := { MartingaleConfig.default with max_steps := 0 } } <
      (1 : ℚ) := by
  have h := C8_zero_steps_max_loss
    { BotConfig.default with
      martingale := { MartingaleConfig.default with max_steps := 0 } } rfl rfl
  exact ⟨h.1, h.2.1 (by norm_num [BotConfig.default, TradingConfig.default])⟩

/-- The JSON object for a `TradingConfig`: `none` models an absent key, so this
covers the partial files `TradingConfig(**data["trading"])` accepts. -/
structure TradingDict where
  base_stake : Option ℚ
  contract_type : Option String
  contract_duration : Option ℤ
  duration_unit : Option String
  trading_asset : Option String
  trade_direction : Option String
deriving DecidableEq, Repr

/-- `TradingConfig(**d)`: each absent key takes the dataclass default. -/
def TradingConfig.ofDict (d : TradingDict) : TradingConfig :=
  { base_stake := d.base_stake.getD 1
    contract_type := d.contract_type.getD "rise_fall"
    contract_duration := d.contract_duration.getD 1
    duration_unit := d.duration_unit.getD "ticks"
    trading_asset := d.trading_asset.getD "R_100"
    trade_direction := d.trade_direction.getD "random" }

/-- The JSON object for a `MartingaleConfig`. -/
structure MartingaleDict where
  enabled : Option Bool
  multiplier : Option ℚ
  max_steps : Option ℤ
  reset_on_win : Option Bool
deriving DecidableEq, Repr

/-- `MartingaleConfig(**d)`. -/
def MartingaleConfig.ofDict (d : MartingaleDict) : MartingaleConfig :=
  { enabled := d.enabled.getD true
    multiplier := d.multiplier.getD 2
    max_steps := d.max_steps.getD 5
    reset_on_win := d.reset_on_win.getD true }

/-- The JSON object for a `RiskManagementConfig`. -/
structure RiskManagementDict where
  take_profit : Option ℚ
  stop_loss : Option ℚ
  max_consecutive_losses : Option ℤ
  min_balance_threshold : Option ℚ
  max_daily_trades : Option ℤ
deriving DecidableEq, Repr

/-- `RiskManagementConfig(**d)`. -/
def RiskManagementConfig.ofDict (d : RiskManagementDict) : RiskManagementConfig :=
  { take_profit := d.take_profit.getD 50
    stop_loss := d.stop_loss.getD 25
    max_consecutive_losses := d.max_consecutive_losses.getD 5
    min_balance_threshold := d.min_balance_threshold.getD 10
    max_daily_trades := d.max_daily_trades.getD 0 }

/-- The JSON object for a `TelegramConfig`. -/
structure TelegramDict where
  enabled : Option Bool
  bot_token : Option String
  chat_id : Option String
  notify_on_win : Option Bool
  notify_on_loss : Option Bool
  notify_on_start : Option Bool
  notify_on_stop : Option Bool
  notify_on_take_profit : Option Bool
  notify_on_stop_loss : Option Bool
  send_session_summary : Option Bool
deriving DecidableEq, Repr

/-- `TelegramConfig(**d)`. -/
def TelegramConfig.ofDict (d : TelegramDict) : TelegramConfig :=
  { enabled := d.enabled.getD false
    bot_token := d.bot_token.getD "YOUR_BOT_TOKEN"
    chat_id := d.chat_id.getD "YOUR_CHAT_ID"
    notify_on_win := d.notify_on_win.getD true
    notify_on_loss := d.notify_on_loss.getD true
    notify_on_start := d.notify_on_start.getD true
    notify_on_stop := d.notify_on_stop.getD true
    notify_on_take_profit := d.notify_on_take_profit.getD true
    notify_on_stop_loss := d.notify_on_stop_loss.getD true
    send_session_summary := d.send_session_summary.getD true }

/-- The top-level JSON object of a configuration file: each of the five keys may
be absent (`none`). -/
structure ConfigDict where
  trading : Option TradingDict
  martingale : Option MartingaleDict
  risk_management : Option RiskManagementDict
  telegram : Option TelegramDict
  risk_level : Option String
deriving DecidableEq, Repr

/-- A Python exception escaping a `ConfigManager` method uncaught. -/
inductive PyError where
  | valueError (s : String)
deriving DecidableEq, Repr

/-- What the file system yields for the resolved path when `load` runs: file
absent, an `IOError` while reading, malformed JSON, or a parsed JSON object. -/
inductive FileData where
  | missing
  | ioError
  | badJson
  | content (data : ConfigDict)
deriving DecidableEq, Repr

namespace ConfigManager

/-- `ConfigManager._dict_to_config`: start from `BotConfig()` defaults, replace
each sub-record whose key is present, and parse the risk level last. A
`risk_level` string outside the enumeration makes `RiskLevel(...)` raise
`ValueError`, modelled as the error branch. -/
def dict_to_config (data : ConfigDict) : Except PyError BotConfig :=
  let config : BotConfig :=
    { trading := (data.trading.map TradingConfig.ofDict).getD TradingConfig.default
      martingale := (data.martingale.map MartingaleConfig.ofDict).getD MartingaleConfig.default
      risk_management :=
        (data.risk_management.map RiskManagementConfig.ofDict).getD RiskManagementConfig.default
      telegram := (data.telegram.map TelegramConfig.ofDict).getD TelegramConfig.default
      risk_level := .moderate }
  match data.risk_level with
  | none => .ok config
  | some s =>
    match RiskLevel.ofValue s with
    | some level => .ok { config with risk_level := level }
    | none => .error (.valueError s)

/-- `ConfigManager._config_to_dict`: `asdict` emits every field, and the risk
level is serialized as its `.value` string. -/
def config_to_dict (config : BotConfig) : ConfigDict :=
  { trading := some
      { base_stake := some config.trading.base_stake
        contract_type := some config.trading.contract_type
        contract_duration := some config.trading.contract_duration
        duration_unit := some config.trading.duration_unit
        trading_asset := some config.trading.trading_asset
        trade_direction := some config.trading.trade_direction }
    martingale := some
      { enabled := some config.martingale.enabled
        multiplier := some config.martingale.multiplier
        max_steps := some config.martingale.max_steps
        reset_on_win := some config.martingale.reset_on_win }
    risk_management := some
      { take_profit := some config.risk_management.take_profit
        stop_loss := some config.risk_management.stop_loss
        max_consecutive_losses := some config.risk_management.max_consecutive_losses
        min_balance_threshold := some config.risk_management.min_balance_threshold
        max_daily_trades := some config.risk_management.max_daily_trades }
    telegram := some
      { enabled := some config.telegram.enabled
        bot_token := some config.telegram.bot_token
        chat_id := some config.telegram.chat_id
        notify_on_win := some config.telegram.notify_on_win
        notify_on_loss := some config.telegram.notify_on_loss
        notify_on_start := some config.telegram.notify_on_start
        notify_on_stop := some config.telegram.notify_on_stop
        notify_on_take_profit := some config.telegram.notify_on_take_profit
        notify_on_stop_loss := some config.telegram.notify_on_stop_loss
        send_session_summary := some config.telegram.send_session_summary }
    risk_level := some config.risk_level.value }

/-- `ConfigManager.load`: `held` is `self.config`; `pathPresent` is the truth of
the resolved path being non-None and non-empty; `fd` is what the file system
yields. Only `json.JSONDecodeError` and `IOError` are caught, so the
`ValueError` of `dict_to_config` propagates. -/
def load (held : BotConfig) (pathPresent : Bool) (fd : FileData) :
    Except PyError BotConfig :=
  if pathPresent = false then .ok held
  else
    match fd with
    | .missing => .ok held
    | .ioError => .ok held
    | .badJson => .ok held
    | .content data => dict_to_config data

/-- The flat record `ConfigManager.export_for_xml` returns; its fields are
exactly the fixed key set of the export mapping. -/
structure XmlExport where
  base_stake : ℚ
  duration_value : ℤ
  duration_type : Char
  symbol : String
  martingale_enabled : Bool
  martingale_multiplier : ℚ
  max_martingale_steps : ℤ
  take_profit : ℚ
  stop_loss : ℚ
  max_consecutive_losses : ℤ
  min_balance : ℚ
  telegram_enabled : Bool
  telegram_token : String
  telegram_chat_id : String
deriving DecidableEq, Repr

/-- `ConfigManager.export_for_xml`: `duration_unit[0]` raises `IndexError` on an
empty string, modelled by the `none` branch. -/
def export_for_xml (config : BotConfig) : Option XmlExport :=
  match config.trading.duration_unit.data with
  | [] => none
  | ch :: _ => some
      { base_stake := config.trading.base_stake
        duration_value := config.trading.contract_duration
        duration_type := ch
        symbol := config.trading.trading_asset
        martingale_enabled := config.martingale.enabled
        martingale_multiplier := config.martingale.multiplier
        max_martingale_steps := config.martingale.max_steps
        take_profit := config.risk_management.take_profit
        stop_loss := config.risk_management.stop_loss
        max_consecutive_losses := config.risk_management.max_consecutive_losses
        min_balance := config.risk_management.min_balance_threshold
        telegram_enabled := config.telegram.enabled
        telegram_token := config.telegram.bot_token
        telegram_chat_id := config.telegram.chat_id }

end ConfigManager

/-- For claim C1: a parsed configuration file whose only key is a `risk_level`
string outside the enumeration. -/
def badRiskLevelDict : ConfigDict :=
  { trading := none, martingale := none, risk_management := none, telegram := none
    risk_level := some "extreme" }

/-- C1 (counterexample): the claim that `load` never raises and returns the held
configuration on any malformed content fails for a file whose `risk_level` is
the unknown string "extreme": `RiskLevel("extreme")` raises `ValueError`, which
the `except (json.JSONDecodeError, IOError)` clause does not catch, so `load`
propagates the exception instead of returning the held configuration. -/
theorem C1_counterexample :
    ConfigManager.load BotConfig.default true (.content badRiskLevelDict) =
      .error (.valueError "extreme") ∧
    ConfigManager.load BotConfig.default true (.content badRiskLevelDict) ≠
      .ok BotConfig.default := by
  have h : ConfigManager.load BotConfig.default true (.content badRiskLevelDict) =
      .error (.valueError "extreme") := rfl
  refine ⟨h, ?_⟩
  rw [h]
  intro hcontra
  exact Except.noConfusion hcontra

/-- C1 (amended): `load` returns the currently held configuration unchanged when
the path is absent, the file is missing, reading raises an I/O error, or the
JSON is invalid; but when the file parses and carries a `risk_level` string
outside the enumeration, the `ValueError` from reconstruction propagates to the
caller uncaught. -/
theorem C1_load_error_policy :
    (∀ (held : BotConfig) (fd : FileData), ConfigManager.load held false fd = .ok held) ∧
    (∀ held : BotConfig, ConfigManager.load held true .missing = .ok held) ∧
    (∀ held : BotConfig, ConfigManager.load held true .ioError = .ok held) ∧
    (∀ held : BotConfig, ConfigManager.load held true .badJson = .ok held) ∧
    (∀ (held : BotConfig) (d : ConfigDict) (s : String),
      d.risk_level = some s → RiskLevel.ofValue s = none →
      ConfigManager.load held true (.content d) = .error (.valueError s)) := by
  refine ⟨fun held fd => rfl, fun held => rfl, fun held => rfl, fun held => rfl, ?_⟩
  intro held d s hs hv
  simp [ConfigManager.load, ConfigManager.dict_to_config, hs, hv]

/-- Witness for C1_load_error_policy at the concrete malformed dictionary. -/
theorem C1_load_error_policy_witness :
    ConfigManager.load BotConfig.default true .badJson = .ok BotConfig.default ∧
    ConfigManager.load BotConfig.default true (.content badRiskLevelDict) =
      .error (.valueError "extreme") := by
  refine ⟨C1_load_error_policy.2.2.2.1 BotConfig.default, ?_⟩
  exact C1_load_error_policy.2.2.2.2 BotConfig.default badRiskLevelDict "extreme" rfl rfl

/-- C4: serializing any configuration with `_config_to_dict` and reconstructing
with `_dict_to_config` yields the original configuration field-for-field,
including the risk-level tag. -/
theorem C4_roundtrip (c : BotConfig) :
    ConfigManager.dict_to_config (ConfigManager.config_to_dict c) = .ok c := by
  rcases c with ⟨t, m, r, tg, lvl⟩
  cases lvl <;> rfl

/-- C10: for every configuration whose duration unit string is non-empty,
`export_for_xml` succeeds and returns exactly the fixed flat record, with
`duration_type` the first character of `duration_unit` and every other field
copied from the corresponding configuration field. -/
theorem C10_export_for_xml (c : BotConfig) (ch : Char) (rest : List Char)
    (h : c.trading.duration_unit.data = ch :: rest) :
    ConfigManager.export_for_xml c = some
      { base_stake := c.trading.base_stake
        duration_value := c.trading.contract_duration
        duration_type := ch
        symbol := c.trading.trading_asset
        martingale_enabled := c.martingale.enabled
        martingale_multiplier := c.martingale.multiplier
        max_martingale_steps := c.martingale.max_steps
        take_profit := c.risk_management.take_profit
        stop_loss := c.risk_management.stop_loss
        max_consecutive_losses := c.risk_management.max_consecutive_losses
        min_balance := c.risk_management.min_balance_threshold
        telegram_enabled := c.telegram.enabled
        telegram_token := c.telegram.bot_token
        telegram_chat_id := c.telegram.chat_id } := by
  simp [ConfigManager.export_for_xml, h]

/-- Witness for C10 at the default configuration, whose duration unit is
"ticks". -/
theorem C10_witness :
    ConfigManager.export_for_xml BotConfig.default = some
      { base_stake := 1
        duration_value := 1
        duration_type := 't'
        symbol := "R_100"
        martingale_enabled := true
        martingale_multiplier := 2
        max_martingale_steps := 5
        take_profit := 50
        stop_loss := 25
        max_consecutive_losses := 5
        min_balance := 10
        telegram_enabled := false
        telegram_token := "YOUR_BOT_TOKEN"
        telegram_chat_id := "YOUR_CHAT_ID" } :=
  C10_export_for_xml BotConfig.default 't' ['i', 'c', 'k', 's'] rfl

/-- Result dictionary of `send_message`: the `ok` flag callers inspect by
convention, plus the `error` entry present on the failure dictionaries the
method itself builds. -/
structure SendResult where
  ok : Bool
  error : Option String
deriving DecidableEq, Repr

/-- Outcome of the one `requests.post` call: a parsed response dictionary, or a
`RequestException` carrying its text. -/
inductive NetResult where
  | respond (r : SendResult)
  | raiseExc (e : String)
deriving DecidableEq, Repr

/-- Model of Python `a or b` for an optional string argument: the fallback is
taken when the argument is `None` or empty (falsy). -/
def pyOr (arg : Option String) (fallback : String) : String :=
  match arg with
  | some s => if s = "" then fallback else s
  | none => fallback

/-- The state a `TelegramNotifier.__init__` call leaves behind: the resolved
credentials and the `enabled` flag computed once at construction. -/
structure TelegramNotifier where
  bot_token : String
  chat_id : String
  enabled : Bool
deriving DecidableEq, Repr

/-- `TelegramNotifier.__init__`: each credential resolves from the explicit
argument first, then the environment variable, then the placeholder; `enabled`
is true only if neither resolved credential equals its placeholder. -/
def TelegramNotifier.init (bot_token chat_id envToken envChat : Option String) :
    TelegramNotifier :=
  let t := pyOr bot_token (envToken.getD "YOUR_BOT_TOKEN")
  let c := pyOr chat_id (envChat.getD "YOUR_CHAT_ID")
  { bot_token := t, chat_id := c
    enabled := (t != "YOUR_BOT_TOKEN") && (c != "YOUR_CHAT_ID") }

/-- Does the second list start with the first? Helper for the substring test. -/
def listStarts [DecidableEq α] : List α → List α → Bool
  | _, [] => true
  | [], _ :: _ => false
  | a :: as, b :: bs => a == b && listStarts as bs

/-- Does `pat` occur contiguously inside `l`? -/
def listHasInfix [DecidableEq α] : List α → List α → Bool
  | [], pat => pat.isEmpty
  | a :: as, pat => listStarts (a :: as) pat || listHasInfix as pat

/-- Model of Python `pat in s` on strings. -/
def pyInStr (pat s : String) : Bool := listHasInfix s.data pat.data

/-- The `stats` dictionary the lifecycle notifications receive; `none` models an
absent key, read with `stats.get(key, default)`. -/
structure StatsDict where
  total_trades : Option ℤ
  wins : Option ℤ
  losses : Option ℤ
  total_profit : Option ℚ
  balance : Option ℚ
  current_stake : Option ℚ
deriving DecidableEq, Repr

/-- The `settings` dictionary of `send_bot_started`. -/
structure SettingsDict where
  base_stake : Option ℚ
  take_profit : Option ℚ
  stop_loss : Option ℚ
  multiplier : Option ℚ
  max_steps : Option ℤ
deriving DecidableEq, Repr

/-- The data embedded in the `send_win_alert` template (timestamps are the
wall-clock string passed in; number-to-text rendering is display-only and not
modelled). -/
structure WinAlertMsg where
  trade_number : ℤ
  profit : ℚ
  total_profit : ℚ
  balance : ℚ
  time : String
deriving DecidableEq, Repr

/-- The data embedded in the `send_loss_alert` template; the template shows the
absolute value of the loss. -/
structure LossAlertMsg where
  trade_number : ℤ
  loss_abs : ℚ
  total_profit : ℚ
  balance : ℚ
  next_stake : ℚ
  martingale_step : ℤ
  time : String
deriving DecidableEq, Repr

/-- The data embedded in the `send_bot_started` template. -/
structure BotStartedMsg where
  initial_balance : ℚ
  base_stake : ℚ
  take_profit : ℚ
  stop_loss : ℚ
  multiplier : ℚ
  max_steps : ℤ
  time : String
deriving DecidableEq, Repr

/-- The data embedded in the `send_bot_stopped` template. -/
structure BotStoppedMsg where
  emoji : String
  reason : String
  total_trades : ℤ
  wins : ℤ
  losses : ℤ
  win_rate : ℚ
  final_balance : ℚ
  total_profit : ℚ
  time : String
deriving DecidableEq, Repr

/-- The data embedded in the `send_take_profit_reached` template. -/
structure TakeProfitMsg where
  target : ℚ
  actual : ℚ
  balance : ℚ
  total_trades : ℤ
  time : String
deriving DecidableEq, Repr

/-- The data embedded in the `send_stop_loss_triggered` template. -/
structure StopLossMsg where
  limit : ℚ
  actual : ℚ
  balance : ℚ
  total_trades : ℤ
  time : String
deriving DecidableEq, Repr

/-- The data embedded in the `send_max_losses_reached` template. -/
structure MaxLossesMsg where
  consecutive : ℤ
  max_allowed : ℤ
  balance : ℚ
  time : String
deriving DecidableEq, Repr

/-- The data embedded in the `send_low_balance_alert` template. -/
structure LowBalanceMsg where
  current : ℚ
  minimum : ℚ
  time : String
deriving DecidableEq, Repr

/-- The data embedded in the `send_session_summary` template. -/
structure SessionSummaryMsg where
  profit_emoji : String
  total_profit : ℚ
  balance : ℚ
  total_trades : ℤ
  wins : ℤ
  losses : ℤ
  win_rate : ℚ
  current_stake : ℚ
  time : String
deriving DecidableEq, Repr

/-- The data embedded in the `send_error_alert` template. -/
structure ErrorAlertMsg where
  error_type : String
  details : String
  time : String
deriving DecidableEq, Repr

/-- `TelegramNotifier.send_message`: when disabled, echo locally and return the
not-configured failure dictionary without touching the network; when enabled,
perform exactly one `requests.post` (modelled by applying `net` to the message)
and either return the parsed response as-is or catch the `RequestException`
into a failure dictionary. The second component counts network calls. -/
def TelegramNotifier.send_message {α : Type} (self : TelegramNotifier) (message : α)
    (net : α → NetResult) : SendResult × ℕ :=
  if self.enabled = false then
    ({ ok := false, error := some "Telegram not configured" }, 0)
  else
    match net message with
    | .respond r => (r, 1)
    | .raiseExc e => ({ ok := false, error := some e }, 1)

/-- `TelegramNotifier.send_win_alert`. -/
def TelegramNotifier.send_win_alert (self : TelegramNotifier)
    (profit total_profit balance : ℚ) (trade_number : ℤ) (now : String)
    (net : WinAlertMsg → NetResult) : SendResult × ℕ :=
  self.send_message
    { trade_number, profit, total_profit, balance, time := now } net

/-- `TelegramNotifier.send_loss_alert`. -/
def TelegramNotifier.send_loss_alert (self : TelegramNotifier)
    (loss total_profit balance next_stake : ℚ) (martingale_step : ℤ)
    (trade_number : ℤ) (now : String)
    (net : LossAlertMsg → NetResult) : SendResult × ℕ :=
  self.send_message
    { trade_number, loss_abs := |loss|, total_profit, balance, next_stake
      martingale_step, time := now } net

/-- `TelegramNotifier.send_bot_started`: absent settings keys take the template
defaults. -/
def TelegramNotifier.send_bot_started (self : TelegramNotifier)
    (initial_balance : ℚ) (settings : SettingsDict) (now : String)
    (net : BotStartedMsg → NetResult) : SendResult × ℕ :=
  self.send_message
    { initial_balance
      base_stake := settings.base_stake.getD 1
      take_profit := settings.take_profit.getD 50
      stop_loss := settings.stop_loss.getD 25
      multiplier := settings.multiplier.getD 2
      max_steps := settings.max_steps.getD 5
      time := now } net

/-- The message `send_bot_stopped` builds: counters default to 0, the win rate
is computed only when `total_trades > 0` and is 0 otherwise, and the emoji is
chosen by substring tests on the lower-cased reason. -/
def botStoppedMessage (reason : String) (final_balance total_profit : ℚ)
    (stats : StatsDict) (now : String) : BotStoppedMsg :=
  let total_trades := stats.total_trades.getD 0
  let wins := stats.wins.getD 0
  let losses := stats.losses.getD 0
  let win_rate : ℚ :=
    if 0 < total_trades then (wins : ℚ) / (total_trades : ℚ) * 100 else 0
  let emoji :=
    if pyInStr "profit" (pyLower reason) then "🎯"
    else if pyInStr "loss" (pyLower reason) then "🛑"
    else "⚠️"
  { emoji, reason, total_trades, wins, losses, win_rate, final_balance
    total_profit, time := now }

/-- `TelegramNotifier.send_bot_stopped`. -/
def TelegramNotifier.send_bot_stopped (self : TelegramNotifier)
    (reason : String) (final_balance total_profit : ℚ) (stats : StatsDict)
    (now : String) (net : BotStoppedMsg → NetResult) : SendResult × ℕ :=
  self.send_message (botStoppedMessage reason final_balance total_profit stats now) net

/-- `TelegramNotifier.send_take_profit_reached`. -/
def TelegramNotifier.send_take_profit_reached (self : TelegramNotifier)
    (target actual balance : ℚ) (stats : StatsDict) (now : String)
    (net : TakeProfitMsg → NetResult) : SendResult × ℕ :=
  self.send_message
    { target, actual, balance, total_trades := stats.total_trades.getD 0
      time := now } net

/-- `TelegramNotifier.send_stop_loss_triggered`. -/
def TelegramNotifier.send_stop_loss_triggered (self : TelegramNotifier)
    (limit actual balance : ℚ) (stats : StatsDict) (now : String)
    (net : StopLossMsg → NetResult) : SendResult × ℕ :=
  self.send_message
    { limit, actual, balance, total_trades := stats.total_trades.getD 0
      time := now } net

/-- `TelegramNotifier.send_max_losses_reached`. -/
def TelegramNotifier.send_max_losses_reached (self : TelegramNotifier)
    (consecutive max_allowed : ℤ) (balance : ℚ) (now : String)
    (net : MaxLossesMsg → NetResult) : SendResult × ℕ :=
  self.send_message { consecutive, max_allowed, balance, time := now } net

/-- `TelegramNotifier.send_low_balance_alert`. -/
def TelegramNotifier.send_low_balance_alert (self : TelegramNotifier)
    (current minimum : ℚ) (now : String)
    (net : LowBalanceMsg → NetResult) : SendResult × ℕ :=
  self.send_message { current, minimum, time := now } net

/-- The message `send_session_summary` builds: the same guarded win-rate
expression as `send_bot_stopped`, and an emoji chosen by the sign of the
profit. -/
def sessionSummaryMessage (stats : StatsDict) (now : String) : SessionSummaryMsg :=
  let total_trades := stats.total_trades.getD 0
  let wins := stats.wins.getD 0
  let losses := stats.losses.getD 0
  let win_rate : ℚ :=
    if 0 < total_trades then (wins : ℚ) / (total_trades : ℚ) * 100 else 0
  let profit_emoji := if 0 ≤ stats.total_profit.getD 0 then "📈" else "📉"
  { profit_emoji, total_profit := stats.total_profit.getD 0
    balance := stats.balance.getD 0, total_trades, wins, losses, win_rate
    current_stake := stats.current_stake.getD 1, time := now }

/-- `TelegramNotifier.send_session_summary`. -/
def TelegramNotifier.send_session_summary (self : TelegramNotifier)
    (stats : StatsDict) (now : String)
    (net : SessionSummaryMsg → NetResult) : SendResult × ℕ :=
  self.send_message (sessionSummaryMessage stats now) net

/-- `TelegramNotifier.send_error_alert`. -/
def TelegramNotifier.send_error_alert (self : TelegramNotifier)
    (error_type details : String) (now : String)
    (net : ErrorAlertMsg → NetResult) : SendResult × ℕ :=
  self.send_message { error_type, details, time := now } net

/-- The failure dictionary `send_message` returns in disabled mode. -/
def notConfiguredResult : SendResult :=
  { ok := false, error := some "Telegram not configured" }

/-- C5: a notifier constructed with either resolved credential equal to its
placeholder has `enabled = false`; and every disabled notifier has
`send_message` return the not-configured failure result with zero network
calls, for every message — hence every `send_*` wrapper, each of which
delegates to `send_message`, behaves the same way. -/
theorem C5_not_configured :
    (∀ bot_token chat_id envToken envChat : Option String,
      (TelegramNotifier.init bot_token chat_id envToken envChat).bot_token =
          "YOUR_BOT_TOKEN" ∨
      (TelegramNotifier.init bot_token chat_id envToken envChat).chat_id =
          "YOUR_CHAT_ID" →
      (TelegramNotifier.init bot_token chat_id envToken envChat).enabled = false) ∧
    (∀ n : TelegramNotifier, n.enabled = false →
      (∀ (α : Type) (msg : α) (net : α → NetResult),
        n.send_message msg net = (notConfiguredResult, 0)) ∧
      (∀ p tp b tn now net, n.send_win_alert p tp b tn now net = (notConfiguredResult, 0)) ∧
      (∀ l tp b ns ms tn now net,
        n.send_loss_alert l tp b ns ms tn now net = (notConfiguredResult, 0)) ∧
      (∀ ib st now net, n.send_bot_started ib st now net = (notConfiguredResult, 0)) ∧
      (∀ r fb tp st now net, n.send_bot_stopped r fb tp st now net = (notConfiguredResult, 0)) ∧
      (∀ t a b st now net,
        n.send_take_profit_reached t a b st now net = (notConfiguredResult, 0)) ∧
      (∀ l a b st now net,
        n.send_stop_loss_triggered l a b st now net = (notConfiguredResult, 0)) ∧
      (∀ cl ma b now net,
        n.send_max_losses_reached cl ma b now net = (notConfiguredResult, 0)) ∧
      (∀ cur min now net, n.send_low_balance_alert cur min now net = (notConfiguredResult, 0)) ∧
      (∀ st now net, n.send_session_summary st now net = (notConfiguredResult, 0)) ∧
      (∀ et d now net, n.send_error_alert et d now net = (notConfiguredResult, 0))) := by
  constructor
  · intro bot_token chat_id envToken envChat h
    rcases h with h | h
    · simp only [TelegramNotifier.init] at h ⊢
      simp [h]
    · simp only [TelegramNotifier.init] at h ⊢
      simp [h]
  · intro n hn
    have hsend : ∀ (α : Type) (msg : α) (net : α → NetResult),
        n.send_message msg net = (notConfiguredResult, 0) := by
      intro α msg net
      simp [TelegramNotifier.send_message, hn, notConfiguredResult]
    refine ⟨hsend, ?_, ?_, ?_, ?_, ?_, ?_, ?_, ?_, ?_, ?_⟩ <;>
      intros <;>
      apply hsend

/-- Witness for C5 at a notifier constructed with no arguments and no
environment variables. -/
theorem C5_witness :
    (TelegramNotifier.init none none none none).enabled = false ∧
    (TelegramNotifier.init none none none none).send_message "hello"
      (fun _ => .respond { ok := true, error := none }) = (notConfiguredResult, 0) ∧
    (TelegramNotifier.init none none none none).send_session_summary
      { total_trades := some 4, wins := some 3, losses := some 1
        total_profit := some 5, balance := some 100, current_stake := some 1 }
      "12:00:00" (fun _ => .respond { ok := true, error := none }) =
      (notConfiguredResult, 0) := by
  have he : (TelegramNotifier.init none none none none).enabled = false :=
    C5_not_configured.1 none none none none (Or.inl rfl)
  have hrest := C5_not_configured.2 (TelegramNotifier.init none none none none) he
  exact ⟨he, hrest.1 String "hello" _, hrest.2.2.2.2.2.2.2.2.2.1 _ _ _⟩

/-- Division on ℚ checked for a zero denominator: `none` marks the division a
Python evaluation would have had to perform with denominator 0. -/
def qdivChecked (a b : ℚ) : Option ℚ :=
  if b = 0 then none else some (a / b)

/-- The win-rate expression of `send_bot_stopped` and `send_session_summary`
with its division checked: the division is attempted only under the
`total_trades > 0` guard. -/
def winRateChecked (stats : StatsDict) : Option ℚ :=
  if 0 < stats.total_trades.getD 0 then
    (qdivChecked (stats.wins.getD 0 : ℚ) (stats.total_trades.getD 0 : ℚ)).map
      (fun q => q * 100)
  else some 0

/-- C9: for every stats dictionary, the win-rate computation of
`send_bot_stopped` and `send_session_summary` never divides by zero: the
checked evaluation always succeeds, both messages carry exactly its value, and
when `total_trades` is absent or 0 the win rate is 0. -/
theorem C9_win_rate_safe (stats : StatsDict) :
    (winRateChecked stats).isSome = true ∧
    (∀ (reason : String) (fb tp : ℚ) (now : String),
      (botStoppedMessage reason fb tp stats now).win_rate =
        (winRateChecked stats).getD 0) ∧
    (∀ now : String,
      (sessionSummaryMessage stats now).win_rate = (winRateChecked stats).getD 0) ∧
    (stats.total_trades = none ∨ stats.total_trades = some 0 →
      (winRateChecked stats).getD 0 = 0) := by
  by_cases hpos : 0 < stats.total_trades.getD 0
  · have hne : (stats.total_trades.getD 0 : ℚ) ≠ 0 := by
      exact_mod_cast ne_of_gt (by exact_mod_cast hpos)
    refine ⟨?_, ?_, ?_, ?_⟩
    · simp [winRateChecked, qdivChecked, hpos, hne]
    · intro reason fb tp now
      simp [botStoppedMessage, winRateChecked, qdivChecked, hpos, hne]
    · intro now
      simp [sessionSummaryMessage, winRateChecked, qdivChecked, hpos, hne]
    · intro habs
      rcases habs with h | h <;> simp [h] at hpos
  · refine ⟨?_, ?_, ?_, ?_⟩
    · simp [winRateChecked, hpos]
    · intro reason fb tp now
      simp [botStoppedMessage, winRateChecked, hpos]
    · intro now
      simp [sessionSummaryMessage, winRateChecked, hpos]
    · intro _
      simp [winRateChecked, hpos]

/-- Witness for C9 at an empty stats dictionary and at one with 0 recorded
trades. -/
theorem C9_witness :
    (winRateChecked
      { total_trades := none, wins := none, losses := none
        total_profit := none, balance := none, current_stake := none }).isSome = true ∧
    (botStoppedMessage "Stop loss hit" 90 (-10)
      { total_trades := some 0, wins := some 0, losses := some 0
        total_profit := some (-10), balance := some 90, current_stake := some 1 }
      "12:00:00").win_rate =
      (winRateChecked
        { total_trades := some 0, wins := some 0, losses := some 0
          total_profit := some (-10), balance := some 90, current_stake := some 1 }).getD 0 ∧
    (winRateChecked
      { total_trades := some 0, wins := some 0, losses := some 0
        total_profit := some (-10), balance := some 90, current_stake := some 1 }).getD 0 = 0 := by
  refine ⟨(C9_win_rate_safe _).1, (C9_win_rate_safe _).2.1 "Stop loss hit" 90 (-10) "12:00:00", ?_⟩
  exact (C9_win_rate_safe _).2.2.2 (Or.inr rfl)

/-- Witness for C4 at the default configuration. -/
theorem C4_witness :
    ConfigManager.dict_to_config (ConfigManager.config_to_dict BotConfig.default) =
      .ok BotConfig.default :=
  C4_roundtrip BotConfig.default

/-- Witness for C6 at the default configuration. -/
theorem C6_witness :
    (PresetManager.apply_preset BotConfig.default .aggressive).trading.base_stake = 2 ∧
    (PresetManager.apply_preset BotConfig.default .aggressive).risk_level = .aggressive :=
  ⟨(C6_apply_aggressive_preset BotConfig.default).1,
    (C6_apply_aggressive_preset BotConfig.default).2.2.2.2.2.2.1⟩
